import Mathlib

/-!
Shallow embedding of the defectdojo-mcp request-normalization and
response-contract layer (src/defectdojo/client.py, findings_tools.py,
products_tools.py, engagements_tools.py, users_tools.py, tests_tools.py).

Python dictionaries that are built fresh per call are modelled as
insertion-ordered association lists (`Dict`); JSON scalars and the small
set of value shapes the layer actually sends are modelled by `Value`.
Operations take the transport outcome as a parameter (the layer treats
the HTTP client as an external collaborator) and return the result
envelope together with the list of requests actually sent, so that
"no transport call is made" is expressible as an empty send log.
-/

/-- JSON-like values appearing in query dicts, payloads and envelopes. -/
inductive Value where
  | str : String → Value
  | int : Int → Value
  | bool : Bool → Value
  | strList : List String → Value
  | intList : List Int → Value
  | dict : List (String × Value) → Value
deriving Repr

/-- A Python dict with string keys, in insertion order. -/
abbrev Dict := List (String × Value)

/-- Membership test: models Python `k in d`. -/
def Dict.hasKey (d : Dict) (k : String) : Bool :=
  d.any (fun p => p.1 == k)

/-- Models Python `d[k] = v`: update the first (only) occurrence in place
keeping its position, else append at the end. -/
def Dict.set : Dict → String → Value → Dict
  | [], k, v => [(k, v)]
  | p :: d, k, v => if p.1 == k then (k, v) :: d else p :: Dict.set d k v

/-- Models Python `d.get(k)` (as an Option). -/
def Dict.get? (d : Dict) (k : String) : Option Value :=
  Option.map Prod.snd (List.find? (fun p => p.1 == k) d)

/-- Models Python `d.get(k, dflt)`. -/
def Dict.getD (d : Dict) (k : String) (dflt : Value) : Value :=
  (Dict.get? d k).getD dflt

/-- Models Python `d.pop(k, None)` (keys are unique in every dict we build). -/
def Dict.pop (d : Dict) (k : String) : Dict :=
  d.filter (fun p => !(p.1 == k))

@[simp]
theorem Dict.hasKey_nil (k : String) : Dict.hasKey [] k = false := rfl

@[simp]
theorem Dict.hasKey_cons (k k' : String) (v : Value) (d : Dict) :
    Dict.hasKey ((k', v) :: d) k = (k' == k || Dict.hasKey d k) := by
  simp [Dict.hasKey]

@[simp]
theorem Dict.get?_nil (k : String) : Dict.get? [] k = none := rfl

@[simp]
theorem Dict.get?_cons (k k' : String) (v : Value) (d : Dict) :
    Dict.get? ((k', v) :: d) k =
      if k' == k then some v else Dict.get? d k := by
  by_cases h : k' == k <;> simp [Dict.get?, List.find?, h]

@[simp]
theorem Dict.hasKey_set (d : Dict) (k k' : String) (v : Value) :
    Dict.hasKey (Dict.set d k v) k' = (k == k' || Dict.hasKey d k') := by
  induction d with
  | nil => simp [Dict.set]
  | cons p d ih =>
    obtain ⟨a, w⟩ := p
    by_cases hak : a == k
    · have ha : a = k := by simpa using hak
      subst ha
      simp [Dict.set]
    · simp [Dict.set, hak, ih]
      by_cases hk' : a == k' <;> by_cases hkk' : k == k' <;> simp [hk', hkk']

@[simp]
theorem Dict.get?_set (d : Dict) (k k' : String) (v : Value) :
    Dict.get? (Dict.set d k v) k' =
      if k == k' then some v else Dict.get? d k' := by
  induction d with
  | nil =>
    by_cases hkk' : k == k' <;> simp [Dict.set, hkk']
  | cons p d ih =>
    obtain ⟨a, w⟩ := p
    by_cases hak : a == k
    · have ha : a = k := by simpa using hak
      subst ha
      by_cases hk' : a == k' <;> simp [Dict.set, hk']
    · have hrw : Dict.set ((a, w) :: d) k v = (a, w) :: Dict.set d k v := by
        simp [Dict.set, hak]
      rw [hrw]
      by_cases hk' : a == k'
      · have : a = k' := by simpa using hk'
        subst this
        have : ¬(k == a) = true := fun h => hak (by simpa using (eq_comm.mp (by simpa using h)))
        simp [this]
      · simp [hk', ih]

/-! ## Transport client (client.py) -/

/-- Outcome of one HTTP exchange as seen inside `DefectDojoClient._request`:
either a 2xx response with a parsed JSON body (object-shaped for this API),
or one of the three captured failure classes
(`httpx.HTTPStatusError`, `httpx.RequestError`, any other exception). -/
inductive TransportOutcome where
  | ok : Nat → Dict → TransportOutcome
  | httpStatusError : Nat → String → TransportOutcome
  | requestError : String → TransportOutcome
  | unexpectedError : String → TransportOutcome

/-- `DefectDojoClient._request`: converts the transport outcome into the
dict the tool functions receive (client.py lines 23-41). -/
def requestResult : TransportOutcome → Dict
  | .ok statusCode body => if statusCode == 204 then [] else body
  | .httpStatusError code text =>
      [("error", Value.str ("HTTP error: " ++ toString code)),
       ("details", Value.str text)]
  | .requestError msg =>
      [("error", Value.str ("Request error: " ++ msg))]
  | .unexpectedError msg =>
      [("error", Value.str ("An unexpected error occurred: " ++ msg))]

/-- True for the three captured failure classes, false for a 2xx outcome. -/
def TransportOutcome.isFailure : TransportOutcome → Bool
  | .ok _ _ => false
  | _ => true

/-- Result of one tool invocation: the returned envelope together with the
query/body dicts actually handed to the transport client, in order. -/
structure OpResult where
  envelope : Dict
  sent : List Dict
deriving Repr

/-- Python truthiness of an `Optional[str]` (`None` and `""` are falsy). -/
def truthyStr : Option String → Bool
  | none => false
  | some s => !(s == "")

/-- Python truthiness of an `Optional[int]` (`None` and `0` are falsy). -/
def truthyInt : Option Int → Bool
  | none => false
  | some n => !(n == 0)

/-- Python `str.lower()` (the status vocabularies here are ASCII). -/
def pyLower (s : String) : String :=
  String.mk (s.data.map Char.toLower)

/-! ## Findings (findings_tools.py) -/

/-- `_build_findings_filters` (findings_tools.py lines 7-62). -/
def build_findings_filters (product_name : Option String)
    (severity : Option String) (active : Option Bool)
    (is_mitigated : Option Bool) (duplicate : Option Bool)
    (engagement_id : Option Int) (limit : Int) (offset : Int) : Dict :=
  let filters : Dict := [("limit", Value.int limit), ("o", Value.str "id")]
  let filters := if truthyStr product_name then
    Dict.set filters "product_name" (Value.str (product_name.getD "")) else filters
  let filters := if truthyStr severity then
    Dict.set filters "severity" (Value.str (severity.getD "")) else filters
  let filters := if active.isSome then
    Dict.set filters "active" (Value.bool (active.getD false)) else filters
  let filters := if is_mitigated.isSome then
    Dict.set filters "is_mitigated" (Value.bool (is_mitigated.getD false)) else filters
  let filters := if duplicate.isSome then
    Dict.set filters "duplicate" (Value.bool (duplicate.getD false)) else filters
  let filters := if engagement_id.isSome then
    Dict.set filters "test__engagement" (Value.int (engagement_id.getD 0)) else filters
  let filters := if offset == 0 then filters else
    Dict.set filters "offset" (Value.int offset)
  filters

/-- The pagination/ordering keys excluded from `applied_filters`. -/
def paginationKeys : List String := ["limit", "offset", "o"]

/-- The `applied = {k: v for k, v in filters.items() if k not in (...)}`
comprehension shared by the list/search/count tools. -/
def appliedOf (filters : Dict) : Dict :=
  filters.filter (fun p => !(paginationKeys.contains p.1))

/-- The three-key error envelope `{"status": "error", "error": ...,
"details": result.get("details", "")}` shared by the tools. -/
def errorEnvelope (result : Dict) : Dict :=
  [("status", Value.str "error"),
   ("error", Dict.getD result "error" (Value.str "")),
   ("details", Dict.getD result "details" (Value.str ""))]

/-- `get_findings` (findings_tools.py lines 65-117), with the transport
modelled as a function from the sent query dict to an outcome. -/
def get_findings (product_name : Option String) (severity : Option String)
    (active : Option Bool) (is_mitigated : Option Bool)
    (duplicate : Option Bool) (engagement_id : Option Int)
    (limit : Int) (offset : Int)
    (transport : Dict → TransportOutcome) : OpResult :=
  let filters := build_findings_filters product_name severity active
    is_mitigated duplicate engagement_id limit offset
  let result := requestResult (transport filters)
  if Dict.hasKey result "error" then
    { envelope := errorEnvelope result, sent := [filters] }
  else
    let applied := appliedOf filters
    let response : Dict := [("status", Value.str "success"), ("data", Value.dict result)]
    let response := if applied.isEmpty then response else
      Dict.set response "applied_filters" (Value.dict applied)
    { envelope := response, sent := [filters] }

/-- `count_findings` (findings_tools.py lines 178-233). -/
def count_findings (product_name : Option String) (severity : Option String)
    (active : Option Bool) (is_mitigated : Option Bool)
    (duplicate : Option Bool) (engagement_id : Option Int)
    (transport : Dict → TransportOutcome) : OpResult :=
  let filters := build_findings_filters product_name severity active
    is_mitigated duplicate engagement_id 1 0
  let result := requestResult (transport filters)
  if Dict.hasKey result "error" then
    { envelope := errorEnvelope result, sent := [filters] }
  else
    let applied := appliedOf filters
    let response : Dict :=
      [("status", Value.str "success"),
       ("count", Dict.getD result "count" (Value.int 0))]
    let response := if applied.isEmpty then response else
      Dict.set response "applied_filters" (Value.dict applied)
    { envelope := response, sent := [filters] }

/-- The status-intent branch of `update_finding_status` (findings_tools.py
lines 246-260): starting from the default `{"active": True}`, set the flags
for the recognized lowercased status, or `none` for the unsupported-status
early return. -/
def status_lower_data (status_lower : String) : Option Dict :=
  let data : Dict := [("active", Value.bool true)]
  if status_lower == "false positive" then
    some (Dict.set data "false_p" (Value.bool true))
  else if status_lower == "verified" then
    some (Dict.set data "verified" (Value.bool true))
  else if status_lower == "mitigated" then
    some (Dict.set (Dict.set data "active" (Value.bool false))
      "mitigated" (Value.bool true))
  else if status_lower == "inactive" then
    some (Dict.set data "active" (Value.bool false))
  else if status_lower == "active" then
    some data
  else
    none

/-- Python truthiness of the `Value` stored in a flag dict. -/
def Value.truthy : Value → Bool
  | .str s => !(s == "")
  | .int n => !(n == 0)
  | .bool b => b
  | .strList l => !l.isEmpty
  | .intList l => !l.isEmpty
  | .dict d => !d.isEmpty

/-- The conflicting-flag clearing block of `update_finding_status`
(findings_tools.py lines 262-284). -/
def clear_conflicting (data : Dict) : Dict :=
  if Value.truthy (Dict.getD data "false_p" (Value.bool false)) then
    Dict.pop (Dict.pop (Dict.pop data "verified") "active") "mitigated"
  else if Value.truthy (Dict.getD data "verified" (Value.bool false)) then
    Dict.pop (Dict.set (Dict.pop data "false_p") "active" (Value.bool true))
      "mitigated"
  else if Value.truthy (Dict.getD data "mitigated" (Value.bool false)) then
    Dict.set (Dict.pop (Dict.pop data "false_p") "verified")
      "active" (Value.bool false)
  else if !(Value.truthy (Dict.getD data "active" (Value.bool true))) then
    Dict.set (Dict.pop (Dict.pop (Dict.pop data "false_p") "verified")
      "mitigated") "active" (Value.bool false)
  else
    Dict.set (Dict.pop (Dict.pop (Dict.pop data "false_p") "verified")
      "mitigated") "active" (Value.bool true)

/-- The full flag payload `update_finding_status` sends for a given caller
status string, or `none` when the status is unsupported. -/
def finding_status_payload (status : String) : Option Dict :=
  Option.map clear_conflicting (status_lower_data (pyLower status))

/-- `update_finding_status` (findings_tools.py lines 236-292). -/
def update_finding_status (finding_id : Int) (status : String)
    (transport : Dict → TransportOutcome) : OpResult :=
  match finding_status_payload status with
  | none =>
    { envelope :=
        [("status", Value.str "error"),
         ("error", Value.str ("Unsupported status: " ++ status ++
           ". Use Active, Verified, False Positive, Mitigated, or Inactive."))],
      sent := [] }
  | some data =>
    let result := requestResult (transport data)
    if Dict.hasKey result "error" then
      { envelope :=
          [("status", Value.str "error"),
           ("error", Dict.getD result "error" (Value.str "")),
           ("details", Dict.getD result "details" (Value.str ""))],
        sent := [data] }
    else
      { envelope := [("status", Value.str "success"), ("data", Value.dict result)],
        sent := [data] }

/-- Python `str.title()` on a list of characters: a cased character that
follows a non-alphabetic character is uppercased, one that follows an
alphabetic character is lowercased. -/
def pyTitleAux : Bool → List Char → List Char
  | _, [] => []
  | prevAlpha, c :: cs =>
    (if prevAlpha then c.toLower else c.toUpper) :: pyTitleAux c.isAlpha cs

/-- Python `str.title()`. -/
def pyTitle (s : String) : String :=
  String.mk (pyTitleAux false s.data)

/-- The severity vocabulary of `create_finding`. -/
def valid_severities : List String := ["critical", "high", "medium", "low", "info"]

/-- The payload construction of `create_finding` (findings_tools.py lines
337-363): severity validation, title-casing, the fixed base payload with
`active`/`verified`, then the truthiness-guarded optional fields. -/
def create_finding_payload (title : String) (test_id : Int) (severity : String)
    (description : String) (cwe : Option Int) (cvssv3 : Option String)
    (mitigation : Option String) (impact : Option String)
    (steps_to_reproduce : Option String) : Except String Dict :=
  let normalized_severity := pyLower severity
  if !(valid_severities.contains normalized_severity) then
    Except.error ("Invalid severity " ++ "'" ++ severity ++ "'" ++
      ". Must be one of: " ++
      String.intercalate ", " (valid_severities.map pyTitle))
  else
    let api_severity := pyTitle severity
    let data : Dict :=
      [("title", Value.str title), ("test", Value.int test_id),
       ("severity", Value.str api_severity),
       ("description", Value.str description),
       ("active", Value.bool true), ("verified", Value.bool false)]
    let data := if cwe.isSome then
      Dict.set data "cwe" (Value.int (cwe.getD 0)) else data
    let data := if truthyStr cvssv3 then
      Dict.set data "cvssv3" (Value.str (cvssv3.getD "")) else data
    let data := if truthyStr mitigation then
      Dict.set data "mitigation" (Value.str (mitigation.getD "")) else data
    let data := if truthyStr impact then
      Dict.set data "impact" (Value.str (impact.getD "")) else data
    let data := if truthyStr steps_to_reproduce then
      Dict.set data "steps_to_reproduce" (Value.str (steps_to_reproduce.getD "")) else data
    Except.ok data

/-- `create_finding` (findings_tools.py lines 317-371). -/
def create_finding (title : String) (test_id : Int) (severity : String)
    (description : String) (cwe : Option Int) (cvssv3 : Option String)
    (mitigation : Option String) (impact : Option String)
    (steps_to_reproduce : Option String)
    (transport : Dict → TransportOutcome) : OpResult :=
  match create_finding_payload title test_id severity description cwe cvssv3
      mitigation impact steps_to_reproduce with
  | .error msg =>
    { envelope := [("status", Value.str "error"), ("error", Value.str msg)],
      sent := [] }
  | .ok data =>
    let result := requestResult (transport data)
    if Dict.hasKey result "error" then
      { envelope := errorEnvelope result, sent := [data] }
    else
      { envelope := [("status", Value.str "success"), ("data", Value.dict result)],
        sent := [data] }

/-! ## Products (products_tools.py) -/

/-- `Union[str, List[str]]` caller input for tags. -/
inductive StrOrList where
  | single : String → StrOrList
  | many : List String → StrOrList

/-- `tag_list = [tags] if isinstance(tags, str) else list(tags)`. -/
def StrOrList.toTagList : StrOrList → List String
  | .single s => [s]
  | .many l => l

/-- `Union[int, List[int]]` caller input for prod_type, passed through as-is. -/
inductive IntOrList where
  | single : Int → IntOrList
  | many : List Int → IntOrList

def IntOrList.toValue : IntOrList → Value
  | .single n => Value.int n
  | .many l => Value.intList l

def VALID_TAGS_MODES : List String := ["any", "all"]

/-- `(tags_mode or "all").lower()`. -/
def effectiveTagsMode (tags_mode : Option String) : String :=
  pyLower (if truthyStr tags_mode then tags_mode.getD "" else "all")

/-- The boolean and offset entries `_build_product_filters` adds after the
tags block (products_tools.py lines 64-73). -/
def productFiltersTail (filters : Dict) (external_audience : Option Bool)
    (internet_accessible : Option Bool) (offset : Int) : Dict :=
  let filters := if external_audience.isSome then
    Dict.set filters "external_audience"
      (Value.bool (external_audience.getD false)) else filters
  let filters := if internet_accessible.isSome then
    Dict.set filters "internet_accessible"
      (Value.bool (internet_accessible.getD false)) else filters
  if offset == 0 then filters else Dict.set filters "offset" (Value.int offset)

/-- `_build_product_filters` (products_tools.py lines 9-73); the raised
`ValueError` is modelled as `Except.error`. -/
def build_product_filters (name : Option String) (prod_type : Option IntOrList)
    (tags : Option StrOrList) (tags_mode : Option String)
    (external_audience : Option Bool) (internet_accessible : Option Bool)
    (limit : Int) (offset : Int) : Except String Dict :=
  let filters : Dict := [("limit", Value.int limit), ("o", Value.str "id")]
  let filters := if truthyStr name then
    Dict.set filters "name" (Value.str (name.getD "")) else filters
  let filters := match prod_type with
    | some pt => Dict.set filters "prod_type" pt.toValue
    | none => filters
  match tags with
  | some t =>
    let effective_mode := effectiveTagsMode tags_mode
    if !(VALID_TAGS_MODES.contains effective_mode) then
      Except.error ("Invalid tags_mode " ++ "'" ++
        (match tags_mode with | some m => m | none => "None") ++ "'" ++
        ". Must be one of: " ++ String.intercalate ", " VALID_TAGS_MODES)
    else
      let tag_list := t.toTagList
      let filters := if effective_mode == "all" then
        Dict.set filters "tags" (Value.strList tag_list)
      else
        Dict.set filters "tag" (Value.strList tag_list)
      Except.ok (productFiltersTail filters external_audience
        internet_accessible offset)
  | none =>
    Except.ok (productFiltersTail filters external_audience
      internet_accessible offset)

/-- `list_products` (products_tools.py lines 76-130): the builder's
`ValueError` is caught and converted to a two-key error envelope before
any transport call. -/
def list_products (name : Option String) (prod_type : Option IntOrList)
    (tags : Option StrOrList) (tags_mode : Option String)
    (external_audience : Option Bool) (internet_accessible : Option Bool)
    (limit : Int) (offset : Int)
    (transport : Dict → TransportOutcome) : OpResult :=
  match build_product_filters name prod_type tags tags_mode
      external_audience internet_accessible limit offset with
  | .error msg =>
    { envelope := [("status", Value.str "error"), ("error", Value.str msg)],
      sent := [] }
  | .ok filters =>
    let result := requestResult (transport filters)
    if Dict.hasKey result "error" then
      { envelope := errorEnvelope result, sent := [filters] }
    else
      let applied := appliedOf filters
      let response : Dict := [("status", Value.str "success"), ("data", Value.dict result)]
      let response := if applied.isEmpty then response else
        Dict.set response "applied_filters" (Value.dict applied)
      { envelope := response, sent := [filters] }

/-- `count_products` (products_tools.py lines 133-190). -/
def count_products (name : Option String) (prod_type : Option IntOrList)
    (tags : Option StrOrList) (tags_mode : Option String)
    (external_audience : Option Bool) (internet_accessible : Option Bool)
    (transport : Dict → TransportOutcome) : OpResult :=
  match build_product_filters name prod_type tags tags_mode
      external_audience internet_accessible 1 0 with
  | .error msg =>
    { envelope := [("status", Value.str "error"), ("error", Value.str msg)],
      sent := [] }
  | .ok filters =>
    let result := requestResult (transport filters)
    if Dict.hasKey result "error" then
      { envelope := errorEnvelope result, sent := [filters] }
    else
      let applied := appliedOf filters
      let response : Dict :=
        [("status", Value.str "success"),
         ("count", Dict.getD result "count" (Value.int 0))]
      let response := if applied.isEmpty then response else
        Dict.set response "applied_filters" (Value.dict applied)
      { envelope := response, sent := [filters] }

/-! ## Engagements (engagements_tools.py) -/

def valid_engagement_statuses : List String :=
  ["Not Started", "Blocked", "Cancelled", "Completed", "In Progress",
   "On Hold", "Waiting for Resource"]

/-- The inline filter construction of `list_engagements` (engagements_tools.py
lines 22-34), i.e. the dict that reaches the transport once the status
filter has passed validation. -/
def build_engagements_filters (product_id : Option Int)
    (status : Option String) (name : Option String) (limit : Int)
    (offset : Int) : Dict :=
  let filters : Dict := [("limit", Value.int limit), ("o", Value.str "-updated")]
  let filters := if truthyInt product_id then
    Dict.set filters "product" (Value.int (product_id.getD 0)) else filters
  let filters := if truthyStr status then
    Dict.set filters "status" (Value.str (status.getD "")) else filters
  let filters := if truthyStr name then
    Dict.set filters "name" (Value.str (name.getD "")) else filters
  if offset == 0 then filters else Dict.set filters "offset" (Value.int offset)

/-- `list_engagements` (engagements_tools.py lines 6-42).  The success
envelope never carries `applied_filters`. -/
def list_engagements (product_id : Option Int) (status : Option String)
    (name : Option String) (limit : Int) (offset : Int)
    (transport : Dict → TransportOutcome) : OpResult :=
  if truthyStr status &&
      !(valid_engagement_statuses.contains (status.getD "")) then
    { envelope :=
        [("status", Value.str "error"),
         ("error", Value.str ("Invalid status filter " ++ "'" ++
           status.getD "" ++ "'" ++ ". Must be one of: " ++
           String.intercalate ", " valid_engagement_statuses))],
      sent := [] }
  else
    let filters := build_engagements_filters product_id status name limit offset
    let result := requestResult (transport filters)
    if Dict.hasKey result "error" then
      { envelope := errorEnvelope result, sent := [filters] }
    else
      { envelope := [("status", Value.str "success"), ("data", Value.dict result)],
        sent := [filters] }

/-- The payload construction of `update_engagement` (engagements_tools.py
lines 170-184): only non-`None` fields enter the data dict. -/
def update_engagement_payload (name : Option String)
    (target_start : Option String) (target_end : Option String)
    (status : Option String) (description : Option String)
    (lead_id : Option Int) (version : Option String)
    (build_id : Option String) (commit_hash : Option String)
    (branch_tag : Option String) (engagement_type : Option String)
    (deduplication_on_engagement : Option Bool)
    (tags : Option (List String)) : Dict :=
  let data : Dict := []
  let data := if name.isSome then
    Dict.set data "name" (Value.str (name.getD "")) else data
  let data := if target_start.isSome then
    Dict.set data "target_start" (Value.str (target_start.getD "")) else data
  let data := if target_end.isSome then
    Dict.set data "target_end" (Value.str (target_end.getD "")) else data
  let data := if status.isSome then
    Dict.set data "status" (Value.str (status.getD "")) else data
  let data := if description.isSome then
    Dict.set data "description" (Value.str (description.getD "")) else data
  let data := if lead_id.isSome then
    Dict.set data "lead" (Value.int (lead_id.getD 0)) else data
  let data := if version.isSome then
    Dict.set data "version" (Value.str (version.getD "")) else data
  let data := if build_id.isSome then
    Dict.set data "build_id" (Value.str (build_id.getD "")) else data
  let data := if commit_hash.isSome then
    Dict.set data "commit_hash" (Value.str (commit_hash.getD "")) else data
  let data := if branch_tag.isSome then
    Dict.set data "branch_tag" (Value.str (branch_tag.getD "")) else data
  let data := if engagement_type.isSome then
    Dict.set data "engagement_type" (Value.str (engagement_type.getD "")) else data
  let data := if deduplication_on_engagement.isSome then
    Dict.set data "deduplication_on_engagement"
      (Value.bool (deduplication_on_engagement.getD false)) else data
  let data := if tags.isSome then
    Dict.set data "tags" (Value.strList (tags.getD [])) else data
  data

/-- `update_engagement` (engagements_tools.py lines 124-196). -/
def update_engagement (engagement_id : Int) (name : Option String)
    (target_start : Option String) (target_end : Option String)
    (status : Option String) (description : Option String)
    (lead_id : Option Int) (version : Option String)
    (build_id : Option String) (commit_hash : Option String)
    (branch_tag : Option String) (engagement_type : Option String)
    (deduplication_on_engagement : Option Bool)
    (tags : Option (List String))
    (transport : Dict → TransportOutcome) : OpResult :=
  if truthyStr status &&
      !(valid_engagement_statuses.contains (status.getD "")) then
    { envelope :=
        [("status", Value.str "error"),
         ("error", Value.str ("Invalid status " ++ "'" ++ status.getD "" ++
           "'" ++ ". Must be one of: " ++
           String.intercalate ", " valid_engagement_statuses))],
      sent := [] }
  else if truthyStr engagement_type &&
      !(["Interactive", "CI/CD"].contains (engagement_type.getD "")) then
    { envelope :=
        [("status", Value.str "error"),
         ("error", Value.str ("Invalid engagement_type " ++ "'" ++
           engagement_type.getD "" ++ "'" ++
           ". Must be " ++ "'" ++ "Interactive" ++ "'" ++ " or " ++ "'" ++
           "CI/CD" ++ "'" ++ "."))],
      sent := [] }
  else
    let data := update_engagement_payload name target_start target_end status
      description lead_id version build_id commit_hash branch_tag
      engagement_type deduplication_on_engagement tags
    if data.isEmpty then
      { envelope :=
          [("status", Value.str "error"),
           ("error", Value.str "At least one field must be provided for update")],
        sent := [] }
    else
      let result := requestResult (transport data)
      if Dict.hasKey result "error" then
        { envelope := errorEnvelope result, sent := [data] }
      else
        { envelope := [("status", Value.str "success"), ("data", Value.dict result)],
          sent := [data] }

/-- The payload construction of `create_engagement` (engagements_tools.py
lines 96-112): the required core fields then the `is not None` guarded
optional fields.  Validation of `status`/`engagement_type` (lines 87-94)
happens before this payload is built and raises, so it is modelled by the
surrounding `Except`. -/
def create_engagement_payload (product_id : Int) (name : String)
    (target_start : String) (target_end : String) (status : String)
    (lead_id : Option Int) (description : Option String)
    (version : Option String) (build_id : Option String)
    (commit_hash : Option String) (branch_tag : Option String)
    (engagement_type : Option String)
    (deduplication_on_engagement : Option Bool)
    (tags : Option (List String)) : Except String Dict :=
  if !(valid_engagement_statuses.contains status) then
    Except.error ("Invalid status " ++ "'" ++ status ++ "'" ++
      ". Must be one of: " ++
      String.intercalate ", " valid_engagement_statuses)
  else if truthyStr engagement_type &&
      !(["Interactive", "CI/CD"].contains (engagement_type.getD "")) then
    Except.error ("Invalid engagement_type " ++ "'" ++
      engagement_type.getD "" ++ "'" ++ ". Must be " ++ "'" ++
      "Interactive" ++ "'" ++ " or " ++ "'" ++ "CI/CD" ++ "'" ++ ".")
  else
    let data : Dict :=
      [("product", Value.int product_id), ("name", Value.str name),
       ("target_start", Value.str target_start),
       ("target_end", Value.str target_end),
       ("status", Value.str status)]
    let data := if lead_id.isSome then
      Dict.set data "lead" (Value.int (lead_id.getD 0)) else data
    let data := if description.isSome then
      Dict.set data "description" (Value.str (description.getD "")) else data
    let data := if version.isSome then
      Dict.set data "version" (Value.str (version.getD "")) else data
    let data := if build_id.isSome then
      Dict.set data "build_id" (Value.str (build_id.getD "")) else data
    let data := if commit_hash.isSome then
      Dict.set data "commit_hash" (Value.str (commit_hash.getD "")) else data
    let data := if branch_tag.isSome then
      Dict.set data "branch_tag" (Value.str (branch_tag.getD "")) else data
    let data := if engagement_type.isSome then
      Dict.set data "engagement_type" (Value.str (engagement_type.getD "")) else data
    let data := if deduplication_on_engagement.isSome then
      Dict.set data "deduplication_on_engagement"
        (Value.bool (deduplication_on_engagement.getD false)) else data
    let data := if tags.isSome then
      Dict.set data "tags" (Value.strList (tags.getD [])) else data
    Except.ok data

/-! ## Tests, users and groups (tests_tools.py, users_tools.py) -/

/-- The inline filter construction of `list_tests` (tests_tools.py
lines 29-38). -/
def build_tests_filters (engagement_id : Option Int) (test_type : Option Int)
    (tags : Option String) (limit : Int) (offset : Int) : Dict :=
  let filters : Dict := [("limit", Value.int limit), ("o", Value.str "-id")]
  let filters := if engagement_id.isSome then
    Dict.set filters "engagement" (Value.int (engagement_id.getD 0)) else filters
  let filters := if test_type.isSome then
    Dict.set filters "test_type" (Value.int (test_type.getD 0)) else filters
  let filters := if truthyStr tags then
    Dict.set filters "tags" (Value.str (tags.getD "")) else filters
  if offset == 0 then filters else Dict.set filters "offset" (Value.int offset)

/-- The inline filter construction of `list_users` (users_tools.py
lines 33-46). -/
def build_users_filters (username : Option String) (first_name : Option String)
    (last_name : Option String) (is_active : Option Bool)
    (is_superuser : Option Bool) (limit : Int) (offset : Int) : Dict :=
  let filters : Dict := [("limit", Value.int limit), ("o", Value.str "id")]
  let filters := if truthyStr username then
    Dict.set filters "username" (Value.str (username.getD "")) else filters
  let filters := if truthyStr first_name then
    Dict.set filters "first_name" (Value.str (first_name.getD "")) else filters
  let filters := if truthyStr last_name then
    Dict.set filters "last_name" (Value.str (last_name.getD "")) else filters
  let filters := if is_active.isSome then
    Dict.set filters "is_active" (Value.bool (is_active.getD false)) else filters
  let filters := if is_superuser.isSome then
    Dict.set filters "is_superuser" (Value.bool (is_superuser.getD false)) else filters
  if offset == 0 then filters else Dict.set filters "offset" (Value.int offset)

/-- The inline filter construction of `list_dojo_groups` (users_tools.py
lines 108-113). -/
def build_groups_filters (name : Option String) (limit : Int)
    (offset : Int) : Dict :=
  let filters : Dict := [("limit", Value.int limit), ("o", Value.str "id")]
  let filters := if truthyStr name then
    Dict.set filters "name" (Value.str (name.getD "")) else filters
  if offset == 0 then filters else Dict.set filters "offset" (Value.int offset)

/-- The inline filter construction of `list_dojo_group_members`
(users_tools.py lines 152-159). -/
def build_group_members_filters (group_id : Option Int) (user_id : Option Int)
    (limit : Int) (offset : Int) : Dict :=
  let filters : Dict := [("limit", Value.int limit), ("o", Value.str "id")]
  let filters := if group_id.isSome then
    Dict.set filters "group" (Value.int (group_id.getD 0)) else filters
  let filters := if user_id.isSome then
    Dict.set filters "user" (Value.int (user_id.getD 0)) else filters
  if offset == 0 then filters else Dict.set filters "offset" (Value.int offset)

/-! ## Generic lemmas about conditionally added keys -/

theorem Dict.get?_setIf (c : Prop) [Decidable c] (d : Dict) (k k' : String)
    (v : Value) (h : (k == k') = false) :
    Dict.get? (if c then Dict.set d k v else d) k' = Dict.get? d k' := by
  split <;> simp [h]

theorem Dict.hasKey_setIf (c : Prop) [Decidable c] (d : Dict) (k k' : String)
    (v : Value) (h : (k == k') = false) :
    Dict.hasKey (if c then Dict.set d k v else d) k' = Dict.hasKey d k' := by
  split <;> simp [h]

theorem Dict.get?_setElse (c : Prop) [Decidable c] (d : Dict) (k k' : String)
    (v : Value) (h : (k == k') = false) :
    Dict.get? (if c then d else Dict.set d k v) k' = Dict.get? d k' := by
  split <;> simp [h]

theorem Dict.hasKey_setElse (c : Prop) [Decidable c] (d : Dict) (k k' : String)
    (v : Value) (h : (k == k') = false) :
    Dict.hasKey (if c then d else Dict.set d k v) k' = Dict.hasKey d k' := by
  split <;> simp [h]

/-! ## Claim theorems -/

/-- C1: for `update_finding_status`, status translation is total over the
five case-insensitively recognized intents and matches the documented
flag table exactly (Active ↦ active=true; Verified ↦ active=true,
verified=true; False Positive ↦ false_p=true; Mitigated ↦ active=false,
mitigated=true; Inactive ↦ active=false); flags outside the intent's row
are absent from the sent payload, so no payload encodes two mutually
exclusive intents. -/
theorem update_finding_status_translation_table (s : String) :
    (pyLower s = "active" →
      finding_status_payload s = some [("active", Value.bool true)]) ∧
    (pyLower s = "verified" →
      finding_status_payload s =
        some [("active", Value.bool true), ("verified", Value.bool true)]) ∧
    (pyLower s = "false positive" →
      finding_status_payload s = some [("false_p", Value.bool true)]) ∧
    (pyLower s = "mitigated" →
      finding_status_payload s =
        some [("active", Value.bool false), ("mitigated", Value.bool true)]) ∧
    (pyLower s = "inactive" →
      finding_status_payload s = some [("active", Value.bool false)]) ∧
    (∀ d, finding_status_payload s = some d →
      (Dict.hasKey d "false_p" && Dict.hasKey d "verified") = false ∧
      (Dict.hasKey d "false_p" && Dict.hasKey d "mitigated") = false ∧
      (Dict.hasKey d "verified" && Dict.hasKey d "mitigated") = false ∧
      (Dict.hasKey d "false_p" && Dict.hasKey d "active") = false) := by
  refine ⟨?_, ?_, ?_, ?_, ?_, ?_⟩
  · intro h; simp only [finding_status_payload, h]; rfl
  · intro h; simp only [finding_status_payload, h]; rfl
  · intro h; simp only [finding_status_payload, h]; rfl
  · intro h; simp only [finding_status_payload, h]; rfl
  · intro h; simp only [finding_status_payload, h]; rfl
  · intro d hd
    by_cases h1 : pyLower s = "false positive"
    · have he : finding_status_payload s = some [("false_p", Value.bool true)] := by
        simp only [finding_status_payload, h1]; rfl
      rw [he] at hd
      obtain rfl := Option.some.inj hd
      exact ⟨rfl, rfl, rfl, rfl⟩
    · by_cases h2 : pyLower s = "verified"
      · have he : finding_status_payload s =
            some [("active", Value.bool true), ("verified", Value.bool true)] := by
          simp only [finding_status_payload, h2]; rfl
        rw [he] at hd
        obtain rfl := Option.some.inj hd
        exact ⟨rfl, rfl, rfl, rfl⟩
      · by_cases h3 : pyLower s = "mitigated"
        · have he : finding_status_payload s =
              some [("active", Value.bool false), ("mitigated", Value.bool true)] := by
            simp only [finding_status_payload, h3]; rfl
          rw [he] at hd
          obtain rfl := Option.some.inj hd
          exact ⟨rfl, rfl, rfl, rfl⟩
        · by_cases h4 : pyLower s = "inactive"
          · have he : finding_status_payload s = some [("active", Value.bool false)] := by
              simp only [finding_status_payload, h4]; rfl
            rw [he] at hd
            obtain rfl := Option.some.inj hd
            exact ⟨rfl, rfl, rfl, rfl⟩
          · by_cases h5 : pyLower s = "active"
            · have he : finding_status_payload s = some [("active", Value.bool true)] := by
                simp only [finding_status_payload, h5]; rfl
              rw [he] at hd
              obtain rfl := Option.some.inj hd
              exact ⟨rfl, rfl, rfl, rfl⟩
            · exfalso
              simp only [finding_status_payload, status_lower_data] at hd
              simp [h1, h2, h3, h4, h5] at hd

/-- C1 witness: the Verified row at the concrete input "VERIFIED". -/
theorem update_finding_status_translation_table_witness :
    pyLower "VERIFIED" = "verified" ∧
    finding_status_payload "VERIFIED" =
      some [("active", Value.bool true), ("verified", Value.bool true)] :=
  ⟨by decide, (update_finding_status_translation_table "VERIFIED").2.1 (by decide)⟩

/-- C6: a status whose lowercasing is outside the five recognized values
makes `update_finding_status` return a validation-error envelope naming
the allowed set, with nothing sent to the transport. -/
theorem update_finding_status_rejects_unknown (finding_id : Int) (s : String)
    (transport : Dict → TransportOutcome)
    (h : pyLower s ∉ ["active", "verified", "false positive", "mitigated", "inactive"]) :
    update_finding_status finding_id s transport =
      { envelope :=
          [("status", Value.str "error"),
           ("error", Value.str ("Unsupported status: " ++ s ++
             ". Use Active, Verified, False Positive, Mitigated, or Inactive."))],
        sent := [] } := by
  simp only [List.mem_cons, List.mem_singleton, not_or] at h
  obtain ⟨h5, h2, h1, h3, h4⟩ := h
  have hp : finding_status_payload s = none := by
    simp only [finding_status_payload, status_lower_data]
    simp [h1, h2, h3, h4, h5]
  simp [update_finding_status, hp]

/-- C6 witness: the spec scenario `update_finding_status(999999, "bogus-status")`
against a transport stub that would answer HTTP 400. -/
theorem update_finding_status_rejects_unknown_witness :
    ("bogus-status".data.map Char.toLower = "bogus-status".data) ∧
    update_finding_status 999999 "bogus-status"
        (fun _ => TransportOutcome.httpStatusError 400 "Bad Request") =
      { envelope :=
          [("status", Value.str "error"),
           ("error", Value.str ("Unsupported status: bogus-status" ++
             ". Use Active, Verified, False Positive, Mitigated, or Inactive."))],
        sent := [] } :=
  ⟨by decide,
   update_finding_status_rejects_unknown 999999 "bogus-status"
     (fun _ => TransportOutcome.httpStatusError 400 "Bad Request") (by decide)⟩

/-- C5 (amended): in the mutation payload builders, every optional field of
`create_engagement` and `update_engagement` is included in the outgoing
payload iff the caller passed a non-`None` value (an explicit empty
string or explicit `False` is still transmitted), and in `create_finding`
the optional `cwe` behaves the same way, while the optional string fields
(`cvssv3`, `mitigation`, `impact`, `steps_to_reproduce`) are included only
when the supplied value is non-`None` and non-empty. -/
theorem mutation_payload_optional_fields (name target_start target_end status
      description : Option String) (lead_id : Option Int)
    (version build_id commit_hash branch_tag engagement_type : Option String)
    (deduplication_on_engagement : Option Bool) (tags : Option (List String))
    (eproduct_id : Int) (ename estart eend estatus : String)
    (elead : Option Int) (edescr eversion ebuild ecommit ebranch etype : Option String)
    (ededup : Option Bool) (etags : Option (List String))
    (title : String) (test_id : Int) (severity : String) (fdescr : String)
    (cwe : Option Int) (cvssv3 mitigation impact steps_to_reproduce : Option String) :
    (Dict.get? (update_engagement_payload name target_start target_end status description lead_id version build_id commit_hash branch_tag engagement_type deduplication_on_engagement tags) "name" =
        Option.map Value.str name ∧
      Dict.get? (update_engagement_payload name target_start target_end status description lead_id version build_id commit_hash branch_tag engagement_type deduplication_on_engagement tags) "target_start" =
        Option.map Value.str target_start ∧
      Dict.get? (update_engagement_payload name target_start target_end status description lead_id version build_id commit_hash branch_tag engagement_type deduplication_on_engagement tags) "target_end" =
        Option.map Value.str target_end ∧
      Dict.get? (update_engagement_payload name target_start target_end status description lead_id version build_id commit_hash branch_tag engagement_type deduplication_on_engagement tags) "status" =
        Option.map Value.str status ∧
      Dict.get? (update_engagement_payload name target_start target_end status description lead_id version build_id commit_hash branch_tag engagement_type deduplication_on_engagement tags) "description" =
        Option.map Value.str description ∧
      Dict.get? (update_engagement_payload name target_start target_end status description lead_id version build_id commit_hash branch_tag engagement_type deduplication_on_engagement tags) "lead" =
        Option.map Value.int lead_id ∧
      Dict.get? (update_engagement_payload name target_start target_end status description lead_id version build_id commit_hash branch_tag engagement_type deduplication_on_engagement tags) "version" =
        Option.map Value.str version ∧
      Dict.get? (update_engagement_payload name target_start target_end status description lead_id version build_id commit_hash branch_tag engagement_type deduplication_on_engagement tags) "build_id" =
        Option.map Value.str build_id ∧
      Dict.get? (update_engagement_payload name target_start target_end status description lead_id version build_id commit_hash branch_tag engagement_type deduplication_on_engagement tags) "commit_hash" =
        Option.map Value.str commit_hash ∧
      Dict.get? (update_engagement_payload name target_start target_end status description lead_id version build_id commit_hash branch_tag engagement_type deduplication_on_engagement tags) "branch_tag" =
        Option.map Value.str branch_tag ∧
      Dict.get? (update_engagement_payload name target_start target_end status description lead_id version build_id commit_hash branch_tag engagement_type deduplication_on_engagement tags) "engagement_type" =
        Option.map Value.str engagement_type ∧
      Dict.get? (update_engagement_payload name target_start target_end status description lead_id version build_id commit_hash branch_tag engagement_type deduplication_on_engagement tags) "deduplication_on_engagement" =
        Option.map Value.bool deduplication_on_engagement ∧
      Dict.get? (update_engagement_payload name target_start target_end status description lead_id version build_id commit_hash branch_tag engagement_type deduplication_on_engagement tags) "tags" =
        Option.map Value.strList tags) ∧
    (∀ d, create_engagement_payload eproduct_id ename estart eend estatus elead edescr eversion ebuild ecommit ebranch etype ededup etags = Except.ok d →
      Dict.get? d "lead" = Option.map Value.int elead ∧
      Dict.get? d "description" = Option.map Value.str edescr ∧
      Dict.get? d "version" = Option.map Value.str eversion ∧
      Dict.get? d "build_id" = Option.map Value.str ebuild ∧
      Dict.get? d "commit_hash" = Option.map Value.str ecommit ∧
      Dict.get? d "branch_tag" = Option.map Value.str ebranch ∧
      Dict.get? d "engagement_type" = Option.map Value.str etype ∧
      Dict.get? d "deduplication_on_engagement" = Option.map Value.bool ededup ∧
      Dict.get? d "tags" = Option.map Value.strList etags) ∧
    (∀ d, create_finding_payload title test_id severity fdescr cwe cvssv3 mitigation impact steps_to_reproduce = Except.ok d →
      Dict.get? d "cwe" = Option.map Value.int cwe ∧
      Dict.get? d "cvssv3" =
        (if truthyStr cvssv3 then some (Value.str (cvssv3.getD "")) else none) ∧
      Dict.get? d "mitigation" =
        (if truthyStr mitigation then some (Value.str (mitigation.getD "")) else none) ∧
      Dict.get? d "impact" =
        (if truthyStr impact then some (Value.str (impact.getD "")) else none) ∧
      Dict.get? d "steps_to_reproduce" =
        (if truthyStr steps_to_reproduce then some (Value.str (steps_to_reproduce.getD "")) else none)) := by
  refine ⟨⟨?_, ?_, ?_, ?_, ?_, ?_, ?_, ?_, ?_, ?_, ?_, ?_, ?_⟩, ?_, ?_⟩
  · cases name <;> simp +decide [update_engagement_payload, Dict.get?_setIf]
  · cases target_start <;> simp +decide [update_engagement_payload, Dict.get?_setIf]
  · cases target_end <;> simp +decide [update_engagement_payload, Dict.get?_setIf]
  · cases status <;> simp +decide [update_engagement_payload, Dict.get?_setIf]
  · cases description <;> simp +decide [update_engagement_payload, Dict.get?_setIf]
  · cases lead_id <;> simp +decide [update_engagement_payload, Dict.get?_setIf]
  · cases version <;> simp +decide [update_engagement_payload, Dict.get?_setIf]
  · cases build_id <;> simp +decide [update_engagement_payload, Dict.get?_setIf]
  · cases commit_hash <;> simp +decide [update_engagement_payload, Dict.get?_setIf]
  · cases branch_tag <;> simp +decide [update_engagement_payload, Dict.get?_setIf]
  · cases engagement_type <;> simp +decide [update_engagement_payload, Dict.get?_setIf]
  · cases deduplication_on_engagement <;> simp +decide [update_engagement_payload, Dict.get?_setIf]
  · cases tags <;> simp +decide [update_engagement_payload, Dict.get?_setIf]
  · intro d h
    by_cases hv1 : valid_engagement_statuses.contains estatus
    · by_cases hv2 : (truthyStr etype &&
          !(["Interactive", "CI/CD"].contains (etype.getD "")))
      · simp only [create_engagement_payload, hv1, hv2] at h
        simp at h
      · have hn1 : ¬((!valid_engagement_statuses.contains estatus) = true) := by
          simpa using hv1
        simp only [create_engagement_payload] at h
        rw [if_neg hn1, if_neg hv2] at h
        obtain rfl := Except.ok.inj h
        refine ⟨?_, ?_, ?_, ?_, ?_, ?_, ?_, ?_, ?_⟩
        · cases elead <;> simp +decide [Dict.get?_setIf]
        · cases edescr <;> simp +decide [Dict.get?_setIf]
        · cases eversion <;> simp +decide [Dict.get?_setIf]
        · cases ebuild <;> simp +decide [Dict.get?_setIf]
        · cases ecommit <;> simp +decide [Dict.get?_setIf]
        · cases ebranch <;> simp +decide [Dict.get?_setIf]
        · cases etype <;> simp +decide [Dict.get?_setIf]
        · cases ededup <;> simp +decide [Dict.get?_setIf]
        · cases etags <;> simp +decide [Dict.get?_setIf]
    · have hp1 : (!valid_engagement_statuses.contains estatus) = true := by
        simpa using hv1
      simp only [create_engagement_payload] at h
      rw [if_pos hp1] at h
      simp at h
  · intro d h
    by_cases hv : valid_severities.contains (pyLower severity)
    · simp only [create_finding_payload, hv] at h
      simp only [Bool.not_true, Bool.false_eq_true, if_false] at h
      obtain rfl := Except.ok.inj h
      refine ⟨?_, ?_, ?_, ?_, ?_⟩
      · cases cwe <;> simp +decide [Dict.get?_setIf]
      · by_cases hc : truthyStr cvssv3 <;> simp +decide [hc, Dict.get?_setIf]
      · by_cases hc : truthyStr mitigation <;> simp +decide [hc, Dict.get?_setIf]
      · by_cases hc : truthyStr impact <;> simp +decide [hc, Dict.get?_setIf]
      · by_cases hc : truthyStr steps_to_reproduce <;> simp +decide [hc, Dict.get?_setIf]
    · simp only [create_finding_payload, hv] at h
      simp at h

/-- C5 counterexample: `create_finding` drops an explicitly supplied empty
string (`cvssv3=""` never reaches the outgoing payload), contradicting the
claim that an explicit empty string is always transmitted. -/
theorem create_finding_drops_explicit_empty_string :
    create_finding_payload "t" 1 "High" "d" none (some "") none none none =
      Except.ok
        [("title", Value.str "t"), ("test", Value.int 1),
         ("severity", Value.str "High"), ("description", Value.str "d"),
         ("active", Value.bool true), ("verified", Value.bool false)] ∧
    Dict.hasKey
      [("title", Value.str "t"), ("test", Value.int 1),
       ("severity", Value.str "High"), ("description", Value.str "d"),
       ("active", Value.bool true), ("verified", Value.bool false)]
      "cvssv3" = false :=
  ⟨rfl, rfl⟩

/-- C5 witness: an explicit empty-string description passed to
`create_engagement` is transmitted as `""`. -/
theorem mutation_payload_optional_fields_witness :
    create_engagement_payload 7 "e" "2024-01-01" "2024-02-01" "In Progress"
        none (some "") none none none none none (some false) none =
      Except.ok
        [("product", Value.int 7), ("name", Value.str "e"),
         ("target_start", Value.str "2024-01-01"),
         ("target_end", Value.str "2024-02-01"),
         ("status", Value.str "In Progress"),
         ("description", Value.str ""),
         ("deduplication_on_engagement", Value.bool false)] ∧
    Dict.get?
      [("product", Value.int 7), ("name", Value.str "e"),
       ("target_start", Value.str "2024-01-01"),
       ("target_end", Value.str "2024-02-01"),
       ("status", Value.str "In Progress"),
       ("description", Value.str ""),
       ("deduplication_on_engagement", Value.bool false)] "description" =
      some (Value.str "") := by
  refine ⟨rfl, ?_⟩
  have h := (mutation_payload_optional_fields none none none none none none
    none none none none none none none 7 "e" "2024-01-01" "2024-02-01"
    "In Progress" none (some "") none none none none none (some false) none
    "t" 1 "h" "d" none none none none none).2.1
  exact (h _ rfl).2.1

/-- C10: whenever `create_finding` passes severity validation, the outgoing
creation payload carries `active=true` and `verified=false` regardless of
every caller argument. -/
theorem create_finding_forces_active_unverified (title : String) (test_id : Int)
    (severity : String) (description : String) (cwe : Option Int)
    (cvssv3 : Option String) (mitigation : Option String)
    (impact : Option String) (steps_to_reproduce : Option String) (d : Dict)
    (h : create_finding_payload title test_id severity description cwe cvssv3
      mitigation impact steps_to_reproduce = Except.ok d) :
    Dict.get? d "active" = some (Value.bool true) ∧
    Dict.get? d "verified" = some (Value.bool false) := by
  by_cases hv : valid_severities.contains (pyLower severity)
  · simp only [create_finding_payload, hv] at h
    simp only [Bool.not_true, Bool.false_eq_true, if_false] at h
    obtain rfl := Except.ok.inj h
    constructor <;> simp +decide [Dict.get?_setIf]
  · simp only [create_finding_payload, hv] at h
    simp at h

/-- C10 witness: a concrete creation payload with every optional argument
supplied still carries `active=true`, `verified=false`. -/
theorem create_finding_forces_active_unverified_witness :
    Dict.get?
      [("title", Value.str "t"), ("test", Value.int 5),
       ("severity", Value.str "High"), ("description", Value.str "d"),
       ("active", Value.bool true), ("verified", Value.bool false),
       ("cwe", Value.int 79)] "active" = some (Value.bool true) ∧
    Dict.get?
      [("title", Value.str "t"), ("test", Value.int 5),
       ("severity", Value.str "High"), ("description", Value.str "d"),
       ("active", Value.bool true), ("verified", Value.bool false),
       ("cwe", Value.int 79)] "verified" = some (Value.bool false) :=
  create_finding_forces_active_unverified "t" 5 "high" "d" (some 79) (some "")
    none none none _ rfl

/-- C7: an `update_engagement` call whose effective payload is empty after
filtering out absent optional fields is rejected with the
at-least-one-field validation error and nothing is sent to the transport. -/
theorem update_engagement_requires_a_field (engagement_id : Int)
    (name target_start target_end status description : Option String)
    (lead_id : Option Int)
    (version build_id commit_hash branch_tag engagement_type : Option String)
    (deduplication_on_engagement : Option Bool) (tags : Option (List String))
    (transport : Dict → TransportOutcome)
    (hp : update_engagement_payload name target_start target_end status
      description lead_id version build_id commit_hash branch_tag
      engagement_type deduplication_on_engagement tags = []) :
    update_engagement engagement_id name target_start target_end status
        description lead_id version build_id commit_hash branch_tag
        engagement_type deduplication_on_engagement tags transport =
      { envelope :=
          [("status", Value.str "error"),
           ("error", Value.str "At least one field must be provided for update")],
        sent := [] } := by
  have hst : Dict.get? (update_engagement_payload name target_start target_end
      status description lead_id version build_id commit_hash branch_tag
      engagement_type deduplication_on_engagement tags) "status" =
      Option.map Value.str status := by
    cases status <;> simp +decide [update_engagement_payload, Dict.get?_setIf]
  have het : Dict.get? (update_engagement_payload name target_start target_end
      status description lead_id version build_id commit_hash branch_tag
      engagement_type deduplication_on_engagement tags) "engagement_type" =
      Option.map Value.str engagement_type := by
    cases engagement_type <;>
      simp +decide [update_engagement_payload, Dict.get?_setIf]
  rw [hp] at hst het
  have hstn : status = none := by
    cases status
    · rfl
    · simp at hst
  have hetn : engagement_type = none := by
    cases engagement_type
    · rfl
    · simp at het
  subst hstn hetn
  simp [update_engagement, truthyStr, hp]

/-- C7 witness: the all-absent call at a concrete engagement id. -/
theorem update_engagement_requires_a_field_witness :
    update_engagement 4242 none none none none none none none none none none
        none none none (fun _ => TransportOutcome.ok 200 []) =
      { envelope :=
          [("status", Value.str "error"),
           ("error", Value.str "At least one field must be provided for update")],
        sent := [] } :=
  update_engagement_requires_a_field 4242 none none none none none none none
    none none none none none none (fun _ => TransportOutcome.ok 200 []) rfl

/-- C9: every filter builder called with no optional arguments produces
exactly the two-key FilterSet of its default `limit` and its
resource-specific default ordering `o`; and in every FilterSet any builder
produces, `limit` is always present while `offset` is present exactly when
it is non-zero. -/
theorem filter_builders_defaults_and_pagination :
    ((build_findings_filters none none none none none none 20 0 =
        [("limit", Value.int 20), ("o", Value.str "id")]) ∧
     (build_product_filters none none none none none none 50 0 =
        Except.ok [("limit", Value.int 50), ("o", Value.str "id")]) ∧
     (build_tests_filters none none none 20 0 =
        [("limit", Value.int 20), ("o", Value.str "-id")]) ∧
     (build_users_filters none none none none none 50 0 =
        [("limit", Value.int 50), ("o", Value.str "id")]) ∧
     (build_groups_filters none 50 0 =
        [("limit", Value.int 50), ("o", Value.str "id")]) ∧
     (build_group_members_filters none none 50 0 =
        [("limit", Value.int 50), ("o", Value.str "id")]) ∧
     (∀ transport, (list_engagements none none none 20 0 transport).sent =
        [[("limit", Value.int 20), ("o", Value.str "-updated")]])) ∧
    ((∀ product_name severity active is_mitigated duplicate engagement_id
        limit offset,
        Dict.hasKey (build_findings_filters product_name severity active
          is_mitigated duplicate engagement_id limit offset) "limit" = true ∧
        Dict.hasKey (build_findings_filters product_name severity active
          is_mitigated duplicate engagement_id limit offset) "offset" =
          !(offset == 0)) ∧
     (∀ name prod_type tags tags_mode external_audience internet_accessible
        limit offset d,
        build_product_filters name prod_type tags tags_mode external_audience
          internet_accessible limit offset = Except.ok d →
        Dict.hasKey d "limit" = true ∧
        Dict.hasKey d "offset" = !(offset == 0)) ∧
     (∀ engagement_id test_type tags limit offset,
        Dict.hasKey (build_tests_filters engagement_id test_type tags limit
          offset) "limit" = true ∧
        Dict.hasKey (build_tests_filters engagement_id test_type tags limit
          offset) "offset" = !(offset == 0)) ∧
     (∀ username first_name last_name is_active is_superuser limit offset,
        Dict.hasKey (build_users_filters username first_name last_name
          is_active is_superuser limit offset) "limit" = true ∧
        Dict.hasKey (build_users_filters username first_name last_name
          is_active is_superuser limit offset) "offset" = !(offset == 0)) ∧
     (∀ name limit offset,
        Dict.hasKey (build_groups_filters name limit offset) "limit" = true ∧
        Dict.hasKey (build_groups_filters name limit offset) "offset" =
          !(offset == 0)) ∧
     (∀ group_id user_id limit offset,
        Dict.hasKey (build_group_members_filters group_id user_id limit
          offset) "limit" = true ∧
        Dict.hasKey (build_group_members_filters group_id user_id limit
          offset) "offset" = !(offset == 0)) ∧
     (∀ product_id status name limit offset transport f,
        f ∈ (list_engagements product_id status name limit offset
          transport).sent →
        Dict.hasKey f "limit" = true ∧
        Dict.hasKey f "offset" = !(offset == 0))) := by
  refine ⟨⟨rfl, rfl, rfl, rfl, rfl, rfl, ?_⟩, ?_, ?_, ?_, ?_, ?_, ?_, ?_⟩
  · intro transport
    have hv0 : ¬((truthyStr (none : Option String) &&
        !(valid_engagement_statuses.contains
          ((none : Option String).getD ""))) = true) := by decide
    simp only [list_engagements]
    rw [if_neg hv0, apply_ite OpResult.sent, ite_self]
    rfl
  · intro product_name severity active is_mitigated duplicate engagement_id
      limit offset
    constructor <;> by_cases ho : (offset == (0 : Int)) = true <;>
      simp +decide [build_findings_filters, Dict.hasKey_setIf, ho]
  · intro name prod_type tags tags_mode external_audience internet_accessible
      limit offset d h
    cases tags with
    | none =>
      simp only [build_product_filters] at h
      obtain rfl := Except.ok.inj h
      cases prod_type <;> constructor <;>
        by_cases ho : (offset == (0 : Int)) = true <;>
        simp +decide [productFiltersTail, Dict.hasKey_setIf, ho]
    | some t =>
      simp only [build_product_filters] at h
      by_cases hv : VALID_TAGS_MODES.contains (effectiveTagsMode tags_mode)
      · rw [if_neg (by simpa using hv)] at h
        by_cases ha : (effectiveTagsMode tags_mode == "all") = true <;>
          simp only [ha, if_true, if_false, Bool.false_eq_true] at h <;>
          obtain rfl := Except.ok.inj h <;>
          cases prod_type <;> constructor <;>
          by_cases ho : (offset == (0 : Int)) = true <;>
          simp +decide [productFiltersTail, Dict.hasKey_setIf, ho]
      · rw [if_pos (by simpa using hv)] at h
        simp at h
  · intro engagement_id test_type tags limit offset
    constructor <;> by_cases ho : (offset == (0 : Int)) = true <;>
      simp +decide [build_tests_filters, Dict.hasKey_setIf, ho]
  · intro username first_name last_name is_active is_superuser limit offset
    constructor <;> by_cases ho : (offset == (0 : Int)) = true <;>
      simp +decide [build_users_filters, Dict.hasKey_setIf, ho]
  · intro name limit offset
    constructor <;> by_cases ho : (offset == (0 : Int)) = true <;>
      simp +decide [build_groups_filters, Dict.hasKey_setIf, ho]
  · intro group_id user_id limit offset
    constructor <;> by_cases ho : (offset == (0 : Int)) = true <;>
      simp +decide [build_group_members_filters, Dict.hasKey_setIf, ho]
  · intro product_id status name limit offset transport f hf
    by_cases hval : (truthyStr status &&
        !(valid_engagement_statuses.contains (status.getD ""))) = true
    · simp only [list_engagements] at hf
      rw [if_pos hval] at hf
      simp at hf
    · simp only [list_engagements] at hf
      rw [if_neg hval] at hf
      rw [apply_ite OpResult.sent, ite_self] at hf
      simp only [List.mem_singleton] at hf
      subst hf
      constructor <;> by_cases ho : (offset == (0 : Int)) = true <;>
        simp +decide [build_engagements_filters, Dict.hasKey_setIf, ho]

/-- C9 witness: the findings builder at a non-zero offset keeps `limit`
and emits `offset`; the product builder result at offset 7 does too. -/
theorem filter_builders_defaults_and_pagination_witness :
    (Dict.hasKey (build_findings_filters none none none none none none 20 7)
      "limit" = true ∧
     Dict.hasKey (build_findings_filters none none none none none none 20 7)
      "offset" = !((7 : Int) == 0)) ∧
    (Dict.hasKey [("limit", Value.int 50), ("o", Value.str "id"),
        ("offset", Value.int 7)] "limit" = true ∧
     Dict.hasKey [("limit", Value.int 50), ("o", Value.str "id"),
        ("offset", Value.int 7)] "offset" = !((7 : Int) == 0)) :=
  ⟨(filter_builders_defaults_and_pagination.2.1 none none none none none none
      20 7),
   (filter_builders_defaults_and_pagination.2.2.1 none none none none none
      none 50 7 _ rfl)⟩

/-- C8: the count variants send `limit=1` while keeping every other filter
key and value identical to what the corresponding list operation would
send for the same arguments, and on a success result the envelope's
`count` equals the body's `count` field, defaulting to 0 when absent. -/
theorem count_variants_force_limit_one :
    ((∀ product_name severity active is_mitigated duplicate engagement_id,
        build_findings_filters product_name severity active is_mitigated
          duplicate engagement_id 1 0 =
        Dict.set (build_findings_filters product_name severity active
          is_mitigated duplicate engagement_id 20 0) "limit" (Value.int 1)) ∧
     (∀ product_name severity active is_mitigated duplicate engagement_id,
        Dict.get? (build_findings_filters product_name severity active
          is_mitigated duplicate engagement_id 1 0) "limit" =
          some (Value.int 1)) ∧
     (∀ product_name severity active is_mitigated duplicate engagement_id
        transport,
        (count_findings product_name severity active is_mitigated duplicate
          engagement_id transport).sent =
        [build_findings_filters product_name severity active is_mitigated
          duplicate engagement_id 1 0]) ∧
     (∀ product_name severity active is_mitigated duplicate engagement_id
        outcome,
        Dict.hasKey (requestResult outcome) "error" = false →
        Dict.get? (count_findings product_name severity active is_mitigated
            duplicate engagement_id (fun _ => outcome)).envelope "count" =
          some (Dict.getD (requestResult outcome) "count" (Value.int 0)) ∧
        Dict.get? (count_findings product_name severity active is_mitigated
            duplicate engagement_id (fun _ => outcome)).envelope "status" =
          some (Value.str "success"))) ∧
    ((∀ name prod_type tags tags_mode external_audience internet_accessible,
        build_product_filters name prod_type tags tags_mode
          external_audience internet_accessible 1 0 =
        Except.map (fun d => Dict.set d "limit" (Value.int 1))
          (build_product_filters name prod_type tags tags_mode
            external_audience internet_accessible 50 0)) ∧
     (∀ name prod_type tags tags_mode external_audience internet_accessible d,
        build_product_filters name prod_type tags tags_mode
          external_audience internet_accessible 1 0 = Except.ok d →
        Dict.get? d "limit" = some (Value.int 1)) ∧
     (∀ name prod_type tags tags_mode external_audience internet_accessible
        transport msg,
        build_product_filters name prod_type tags tags_mode
          external_audience internet_accessible 1 0 = Except.error msg →
        (count_products name prod_type tags tags_mode external_audience
          internet_accessible transport).sent = []) ∧
     (∀ name prod_type tags tags_mode external_audience internet_accessible
        transport d,
        build_product_filters name prod_type tags tags_mode
          external_audience internet_accessible 1 0 = Except.ok d →
        (count_products name prod_type tags tags_mode external_audience
          internet_accessible transport).sent = [d]) ∧
     (∀ name prod_type tags tags_mode external_audience internet_accessible
        outcome d,
        build_product_filters name prod_type tags tags_mode
          external_audience internet_accessible 1 0 = Except.ok d →
        Dict.hasKey (requestResult outcome) "error" = false →
        Dict.get? (count_products name prod_type tags tags_mode
            external_audience internet_accessible
            (fun _ => outcome)).envelope "count" =
          some (Dict.getD (requestResult outcome) "count" (Value.int 0)) ∧
        Dict.get? (count_products name prod_type tags tags_mode
            external_audience internet_accessible
            (fun _ => outcome)).envelope "status" =
          some (Value.str "success"))) := by
  refine ⟨⟨?_, ?_, ?_, ?_⟩, ?_, ?_, ?_, ?_, ?_⟩
  · intro product_name severity active is_mitigated duplicate engagement_id
    cases h1 : truthyStr product_name <;> cases h2 : truthyStr severity <;>
      cases h3 : active.isSome <;> cases h4 : is_mitigated.isSome <;>
      cases h5 : duplicate.isSome <;> cases h6 : engagement_id.isSome <;>
      simp +decide [build_findings_filters, h1, h2, h3, h4, h5, h6, Dict.set]
  · intro product_name severity active is_mitigated duplicate engagement_id
    simp +decide [build_findings_filters, Dict.get?_setIf]
  · intro product_name severity active is_mitigated duplicate engagement_id
      transport
    simp [count_findings, apply_ite OpResult.sent]
  · intro product_name severity active is_mitigated duplicate engagement_id
      outcome h
    have hn : ¬(Dict.hasKey (requestResult outcome) "error" = true) := by
      simp [h]
    constructor <;>
      · simp only [count_findings]
        rw [if_neg hn]
        simp +decide [Dict.get?_setIf, Dict.get?_setElse]
  · intro name prod_type tags tags_mode external_audience internet_accessible
    cases tags with
    | none =>
      cases prod_type <;> cases h1 : truthyStr name <;>
        cases h3 : external_audience.isSome <;>
        cases h4 : internet_accessible.isSome <;>
        simp +decide [build_product_filters, productFiltersTail, Except.map,
          h1, h3, h4, Dict.set]
    | some t =>
      by_cases hv : VALID_TAGS_MODES.contains (effectiveTagsMode tags_mode)
      · have hnv : ¬((!VALID_TAGS_MODES.contains
            (effectiveTagsMode tags_mode)) = true) := by simpa using hv
        simp only [build_product_filters]
        rw [if_neg hnv, if_neg hnv]
        by_cases ha : (effectiveTagsMode tags_mode == "all") = true <;>
          cases prod_type <;> cases h1 : truthyStr name <;>
          cases h3 : external_audience.isSome <;>
          cases h4 : internet_accessible.isSome <;>
          simp +decide [productFiltersTail, Except.map, ha, h1, h3, h4,
            Dict.set]
      · have hpv : ((!VALID_TAGS_MODES.contains
            (effectiveTagsMode tags_mode)) = true) := by simpa using hv
        simp only [build_product_filters]
        rw [if_pos hpv, if_pos hpv]
        simp [Except.map]
  · intro name prod_type tags tags_mode external_audience internet_accessible
      d h
    cases tags with
    | none =>
      simp only [build_product_filters] at h
      obtain rfl := Except.ok.inj h
      cases prod_type <;>
        simp +decide [productFiltersTail, Dict.get?_setIf]
    | some t =>
      simp only [build_product_filters] at h
      by_cases hv : VALID_TAGS_MODES.contains (effectiveTagsMode tags_mode)
      · rw [if_neg (by simpa using hv)] at h
        by_cases ha : (effectiveTagsMode tags_mode == "all") = true <;>
          simp only [ha, if_true, if_false, Bool.false_eq_true] at h <;>
          obtain rfl := Except.ok.inj h <;>
          cases prod_type <;>
          simp +decide [productFiltersTail, Dict.get?_setIf]
      · rw [if_pos (by simpa using hv)] at h
        simp at h
  · intro name prod_type tags tags_mode external_audience internet_accessible
      transport msg h
    simp [count_products, h]
  · intro name prod_type tags tags_mode external_audience internet_accessible
      transport d h
    simp [count_products, h, apply_ite OpResult.sent]
  · intro name prod_type tags tags_mode external_audience internet_accessible
      outcome d h herr
    have hn : ¬(Dict.hasKey (requestResult outcome) "error" = true) := by
      simp [herr]
    constructor <;>
      · simp only [count_products, h]
        rw [if_neg hn]
        simp +decide [Dict.get?_setIf, Dict.get?_setElse]

/-- C8 witness: a concrete count_findings call against a body with count=3
yields the success envelope with that count. -/
theorem count_variants_force_limit_one_witness :
    Dict.hasKey (requestResult (TransportOutcome.ok 200
      [("count", Value.int 3)])) "error" = false ∧
    Dict.get? (count_findings none none none none none none
        (fun _ => TransportOutcome.ok 200 [("count", Value.int 3)])).envelope
      "count" =
      some (Dict.getD (requestResult (TransportOutcome.ok 200
        [("count", Value.int 3)])) "count" (Value.int 0)) :=
  ⟨rfl,
   (count_variants_force_limit_one.1.2.2.2 none none none none none none
     (TransportOutcome.ok 200 [("count", Value.int 3)]) rfl).1⟩

/-- C3 counterexample: an explicitly supplied empty tags_mode is silently
defaulted to "all" (the tag list lands under `tags`) instead of being
rejected as a validation error. -/
theorem tags_mode_empty_string_silently_defaults :
    build_product_filters none none (some (StrOrList.single "a")) (some "")
        none none 50 0 =
      Except.ok [("limit", Value.int 50), ("o", Value.str "id"),
        ("tags", Value.strList ["a"])] :=
  rfl

/-- C3 (amended): when tags are supplied, the combination mode defaults to
"all" when absent or empty, is lowercased before matching, and then:
lowercased "any" puts the normalized tag list under `tag` (no `tags` key),
lowercased "all" puts it under `tags` (no `tag` key), and any other
effective mode makes `list_products` return the two-key error envelope
with message `Invalid tags_mode '<mode>'. Must be one of: any, all`
without calling the transport. -/
theorem product_tags_mode_handling (name : Option String)
    (prod_type : Option IntOrList) (t : StrOrList) (tags_mode : Option String)
    (external_audience internet_accessible : Option Bool)
    (limit offset : Int) :
    (effectiveTagsMode tags_mode = "any" →
      ∃ d, build_product_filters name prod_type (some t) tags_mode
          external_audience internet_accessible limit offset = Except.ok d ∧
        Dict.get? d "tag" = some (Value.strList t.toTagList) ∧
        Dict.hasKey d "tags" = false) ∧
    (effectiveTagsMode tags_mode = "all" →
      ∃ d, build_product_filters name prod_type (some t) tags_mode
          external_audience internet_accessible limit offset = Except.ok d ∧
        Dict.get? d "tags" = some (Value.strList t.toTagList) ∧
        Dict.hasKey d "tag" = false) ∧
    (effectiveTagsMode none = "all") ∧
    (effectiveTagsMode (some "") = "all") ∧
    (∀ m, tags_mode = some m →
      effectiveTagsMode tags_mode ∉ VALID_TAGS_MODES →
      ∀ transport,
        list_products name prod_type (some t) tags_mode external_audience
            internet_accessible limit offset transport =
          { envelope :=
              [("status", Value.str "error"),
               ("error", Value.str ("Invalid tags_mode " ++ "'" ++ m ++ "'" ++
                 ". Must be one of: any, all"))],
            sent := [] }) := by
  have hs : ∀ X : String,
      X ++ ". Must be one of: " ++ String.intercalate ", " VALID_TAGS_MODES =
      X ++ ". Must be one of: any, all" := fun X => by
    rw [String.append_assoc]
    rfl
  refine ⟨?_, ?_, rfl, rfl, ?_⟩
  · intro h
    have hnv : ¬((!VALID_TAGS_MODES.contains
        (effectiveTagsMode tags_mode)) = true) := by
      rw [h]; decide
    have ha : (effectiveTagsMode tags_mode == "all") = false := by
      rw [h]; decide
    cases hb : build_product_filters name prod_type (some t) tags_mode
        external_audience internet_accessible limit offset with
    | error e =>
      exfalso
      simp only [build_product_filters] at hb
      rw [if_neg hnv] at hb
      simp only [ha, Bool.false_eq_true, if_false] at hb
      simp at hb
    | ok d =>
      refine ⟨d, rfl, ?_, ?_⟩ <;>
      · simp only [build_product_filters] at hb
        rw [if_neg hnv] at hb
        simp only [ha, Bool.false_eq_true, if_false] at hb
        obtain rfl := Except.ok.inj hb
        cases prod_type <;>
          simp +decide [productFiltersTail, Dict.get?_setIf,
            Dict.get?_setElse, Dict.hasKey_setIf, Dict.hasKey_setElse]
  · intro h
    have hnv : ¬((!VALID_TAGS_MODES.contains
        (effectiveTagsMode tags_mode)) = true) := by
      rw [h]; decide
    have ha : (effectiveTagsMode tags_mode == "all") = true := by
      rw [h]; decide
    cases hb : build_product_filters name prod_type (some t) tags_mode
        external_audience internet_accessible limit offset with
    | error e =>
      exfalso
      simp only [build_product_filters] at hb
      rw [if_neg hnv] at hb
      simp only [ha, if_true] at hb
      simp at hb
    | ok d =>
      refine ⟨d, rfl, ?_, ?_⟩ <;>
      · simp only [build_product_filters] at hb
        rw [if_neg hnv] at hb
        simp only [ha, if_true] at hb
        obtain rfl := Except.ok.inj hb
        cases prod_type <;>
          simp +decide [productFiltersTail, Dict.get?_setIf,
            Dict.get?_setElse, Dict.hasKey_setIf, Dict.hasKey_setElse]
  · intro m hm hv transport
    subst hm
    have hpv : ((!VALID_TAGS_MODES.contains
        (effectiveTagsMode (some m))) = true) := by
      simpa using hv
    have hb : build_product_filters name prod_type (some t) (some m)
        external_audience internet_accessible limit offset =
        Except.error ("Invalid tags_mode " ++ "'" ++ m ++ "'" ++
          ". Must be one of: any, all") := by
      simp only [build_product_filters]
      rw [if_pos hpv, hs]
    simp only [list_products, hb]

/-- C3 witness: the spec scenario `list_products(tags="x", tags_mode="bad")`
returns exactly the two-key error envelope and sends nothing. -/
theorem product_tags_mode_handling_witness :
    list_products none none (some (StrOrList.single "x")) (some "bad") none
        none 50 0 (fun _ => TransportOutcome.ok 200 []) =
      { envelope :=
          [("status", Value.str "error"),
           ("error", Value.str ("Invalid tags_mode " ++ "'" ++ "bad" ++ "'" ++
             ". Must be one of: any, all"))],
        sent := [] } :=
  (product_tags_mode_handling none none (StrOrList.single "x") (some "bad")
    none none 50 0).2.2.2.2 "bad" rfl (by decide)
    (fun _ => TransportOutcome.ok 200 [])

/-- C2 counterexample: a successful 2xx outcome whose parsed JSON body
itself contains a top-level "error" key is classified as an error
envelope, so a successful transport outcome does not always yield
status "success". -/
theorem success_body_with_error_key_misclassified :
    TransportOutcome.isFailure
      (TransportOutcome.ok 200 [("error", Value.str "x")]) = false ∧
    (get_findings none none none none none none 20 0
        (fun _ => TransportOutcome.ok 200 [("error", Value.str "x")])).envelope =
      [("status", Value.str "error"), ("error", Value.str "x"),
       ("details", Value.str "")] :=
  ⟨rfl, rfl⟩

/-- C2 (amended): the envelope status of `get_findings` is "error" iff the
dict produced by `_request` carries a top-level "error" key; all three
captured failure classes produce such a dict, while a 2xx outcome
produces one exactly when its parsed body itself carries a top-level
"error" key (never for a 204, whose body is replaced by the empty dict). -/
theorem envelope_error_iff_error_key (product_name severity : Option String)
    (active is_mitigated duplicate : Option Bool)
    (engagement_id : Option Int) (limit offset : Int)
    (outcome : TransportOutcome) :
    ((Dict.get? (get_findings product_name severity active is_mitigated
        duplicate engagement_id limit offset
        (fun _ => outcome)).envelope "status" = some (Value.str "error")) ↔
      Dict.hasKey (requestResult outcome) "error" = true) ∧
    (TransportOutcome.isFailure outcome = true →
      Dict.hasKey (requestResult outcome) "error" = true) ∧
    (∀ code body,
      Dict.hasKey (requestResult (TransportOutcome.ok code body)) "error" =
        (!(code == 204) && Dict.hasKey body "error")) := by
  refine ⟨?_, ?_, ?_⟩
  · by_cases hr : Dict.hasKey (requestResult outcome) "error" = true
    · simp only [get_findings]
      rw [if_pos hr]
      simp +decide [errorEnvelope, hr]
    · simp only [get_findings]
      rw [if_neg hr]
      simp +decide [Dict.get?_setElse, hr]
  · intro hfail
    cases outcome <;> simp_all +decide [TransportOutcome.isFailure, requestResult]
  · intro code body
    by_cases hc : (code == 204) = true <;> simp [requestResult, hc]

/-- C2 witness: a connectivity failure produces a result dict with the
"error" key. -/
theorem envelope_error_iff_error_key_witness :
    TransportOutcome.isFailure (TransportOutcome.requestError "boom") = true ∧
    Dict.hasKey (requestResult (TransportOutcome.requestError "boom"))
      "error" = true :=
  ⟨rfl,
   (envelope_error_iff_error_key none none none none none none 20 0
     (TransportOutcome.requestError "boom")).2.1 rfl⟩

/-- C4 counterexample: `list_engagements` with a caller-supplied product
filter returns a success envelope without any `applied_filters` key. -/
theorem list_engagements_never_echoes_filters :
    (list_engagements (some 5) none none 20 0
        (fun _ => TransportOutcome.ok 200 [("count", Value.int 0)])).envelope =
      [("status", Value.str "success"),
       ("data", Value.dict [("count", Value.int 0)])] ∧
    Dict.hasKey (list_engagements (some 5) none none 20 0
        (fun _ => TransportOutcome.ok 200 [("count", Value.int 0)])).envelope
      "applied_filters" = false :=
  ⟨rfl, rfl⟩

set_option maxHeartbeats 1000000 in
/-- C4 (amended): on a successful result, `get_findings` carries
`applied_filters` exactly when the caller supplied at least one
non-pagination, non-ordering filter, and its value echoes exactly the
built filters minus the `limit`/`offset`/`o` keys; `list_engagements`,
by contrast, never includes `applied_filters` in any envelope. -/
theorem applied_filters_presence (product_name severity : Option String)
    (active is_mitigated duplicate : Option Bool)
    (engagement_id : Option Int) (limit offset : Int)
    (outcome : TransportOutcome)
    (h : Dict.hasKey (requestResult outcome) "error" = false) :
    (Dict.hasKey (get_findings product_name severity active is_mitigated
        duplicate engagement_id limit offset
        (fun _ => outcome)).envelope "applied_filters" =
      (truthyStr product_name || truthyStr severity || active.isSome ||
        is_mitigated.isSome || duplicate.isSome || engagement_id.isSome)) ∧
    (Dict.get? (get_findings product_name severity active is_mitigated
        duplicate engagement_id limit offset
        (fun _ => outcome)).envelope "applied_filters" =
      (if (appliedOf (build_findings_filters product_name severity active
            is_mitigated duplicate engagement_id limit offset)).isEmpty then
        none
      else
        some (Value.dict (appliedOf (build_findings_filters product_name
          severity active is_mitigated duplicate engagement_id limit
          offset))))) ∧
    (∀ product_id status name elimit eoffset transport,
      Dict.hasKey (list_engagements product_id status name elimit eoffset
        transport).envelope "applied_filters" = false) := by
  have hn : ¬(Dict.hasKey (requestResult outcome) "error" = true) := by
    simp [h]
  have henv : (get_findings product_name severity active is_mitigated
      duplicate engagement_id limit offset (fun _ => outcome)).envelope =
      (if (appliedOf (build_findings_filters product_name severity active
          is_mitigated duplicate engagement_id limit offset)).isEmpty then
        [("status", Value.str "success"),
         ("data", Value.dict (requestResult outcome))]
      else
        Dict.set [("status", Value.str "success"),
          ("data", Value.dict (requestResult outcome))] "applied_filters"
          (Value.dict (appliedOf (build_findings_filters product_name
            severity active is_mitigated duplicate engagement_id limit
            offset)))) := by
    simp only [get_findings]
    rw [if_neg hn]
  refine ⟨?_, ?_, ?_⟩
  · rw [henv]
    cases h1 : truthyStr product_name <;> cases h2 : truthyStr severity <;>
      cases h3 : active.isSome <;> cases h4 : is_mitigated.isSome <;>
      cases h5 : duplicate.isSome <;> cases h6 : engagement_id.isSome <;>
      by_cases ho : (offset == (0 : Int)) = true <;>
      simp +decide [build_findings_filters, appliedOf, paginationKeys,
        h1, h2, h3, h4, h5, h6, ho, Dict.set]
  · rw [henv]
    cases h1 : truthyStr product_name <;> cases h2 : truthyStr severity <;>
      cases h3 : active.isSome <;> cases h4 : is_mitigated.isSome <;>
      cases h5 : duplicate.isSome <;> cases h6 : engagement_id.isSome <;>
      by_cases ho : (offset == (0 : Int)) = true <;>
      simp +decide [build_findings_filters, appliedOf, paginationKeys,
        h1, h2, h3, h4, h5, h6, ho, Dict.set]
  · intro product_id status name elimit eoffset transport
    by_cases hval : (truthyStr status &&
        !(valid_engagement_statuses.contains (status.getD ""))) = true
    · simp only [list_engagements]
      rw [if_pos hval]
      rfl
    · simp only [list_engagements]
      rw [if_neg hval]
      by_cases hre : Dict.hasKey (requestResult (transport
          (build_engagements_filters product_id status name elimit
            eoffset))) "error" = true
      · rw [if_pos hre]
        rfl
      · rw [if_neg hre]
        rfl

/-- C4 witness: with a product_name filter supplied and a clean success
body, the envelope carries applied_filters. -/
theorem applied_filters_presence_witness :
    Dict.hasKey (get_findings (some "p") none none none none none 20 0
        (fun _ => TransportOutcome.ok 200 [("count", Value.int 0)])).envelope
      "applied_filters" =
      (truthyStr (some "p") || truthyStr (none : Option String) ||
        (none : Option Bool).isSome || (none : Option Bool).isSome ||
        (none : Option Bool).isSome || (none : Option Int).isSome) :=
  (applied_filters_presence (some "p") none none none none none 20 0
    (TransportOutcome.ok 200 [("count", Value.int 0)]) rfl).1
